import Mathlib

/-!
Verification of the isocoder client (src/isocoder) against its
natural-language specification.

The client is a blocking submit-and-poll wrapper around a remote TVAE
service.  We shallowly embed the code of `src/isocoder/api.py`,
`src/isocoder/errors.py` and `src/isocoder/utils.py`:

* `clean_base_url` mirrors `utils.clean_base_url` (Python `str.strip`
  becomes `String.trim`, `url[:-1]` becomes `String.dropRight 1`).
* `ErrKind` names the exception classes the client can raise;
  `subclassOfIsocoderError` records the class hierarchy of
  `errors.py` (plus the builtin `ValueError` used by the constructor
  argument checks, which is not a subclass of `IsocoderError`).
* `buildPayload` mirrors the JSON body construction of
  `TVAE.__init__` (api.py lines 63-75).
* `pollLoop` mirrors the `while time.time() < deadline` polling loop
  (api.py lines 97-124); `run_tvae` mirrors the whole constructor.

The HTTP backend and the wall clock are modelled by an oracle `Env`:
the submit response, the response to the n-th status GET, and the
value `time.time()` returns at the n-th loop-condition check.  The
loop is written with explicit fuel because the Python loop need not
terminate when the poll interval is zero and the clock does not
advance; `none` means the fuel ran out before the code decided.
Numpy arrays and the npz/base64 codec are opaque to every claim, so
arrays are an abstract stand-in type and the encoder is passed in as
a function argument.

A run records its observable trace: the outcome, the submitted
payload (if submission was reached), and the number of POSTs, of GET
attempts, and the list of sleep durations in order.
-/

/-- Stand-in for a numpy array; the claims never inspect its contents. -/
abbrev NpArray := List Int

/-- Stand-in for the free-form `config` mapping forwarded to the backend. -/
abbrev ConfigMap := List (String × String)

/-- Stand-in for the JSON `result` mapping of a succeeded job. -/
abbrev ResultMap := List (String × Int)

/-- Embedding of Python `str.strip()` with no argument: remove leading
and trailing whitespace characters.  Written over the character list
so that it evaluates by kernel reduction. -/
def pyStrip (s : String) : String :=
  ⟨((s.data.dropWhile Char.isWhitespace).reverse.dropWhile
      Char.isWhitespace).reverse⟩

/-- Embedding of `utils.clean_base_url`: strip surrounding whitespace,
then drop one trailing slash if present (`url[:-1] if
url.endswith("/") else url`). -/
def clean_base_url (url : String) : String :=
  if (pyStrip url).data.getLast? = some '/' then ⟨(pyStrip url).data.dropLast⟩
  else pyStrip url

/-- The exception classes a run of the client can raise.  `valueError`
is the Python builtin raised by the constructor argument checks; the
other four are defined in `errors.py` (`TimeoutError` there is the
client subtype, imported as `ClientTimeout` in api.py). -/
inductive ErrKind where
  | valueError
  | isocoderError
  | authError
  | remoteJobError
  | clientTimeout
deriving DecidableEq, Repr

/-- Class hierarchy of `errors.py`: `AuthError`, `RemoteJobError` and
`TimeoutError` all derive from `IsocoderError`; the builtin
`ValueError` does not. -/
def subclassOfIsocoderError : ErrKind → Bool
  | .valueError => false
  | .isocoderError => true
  | .authError => true
  | .remoteJobError => true
  | .clientTimeout => true

/-- JSON body of a `/run` response, as far as the client reads it:
`r.json().get("job_id")`. -/
structure SubmitJson where
  job_id : Option String
deriving DecidableEq, Repr

/-- JSON body of a `/status/[job_id]` response, as far as the client
reads it: the `state`, `result` and `error` fields. -/
structure StatusJson where
  state : Option String
  result : Option ResultMap
  error : Option String
deriving DecidableEq, Repr

/-- Outcome of one HTTP call: a `requests.RequestException` carrying a
message, or a response with a status code, body text and parsed JSON. -/
inductive HttpResult (α : Type) where
  | exn (msg : String)
  | resp (status : Nat) (text : String) (body : α)
deriving DecidableEq, Repr

/-- The JSON body POSTed to `/run` (api.py lines 63-75). -/
structure Payload where
  hf_repo : String
  hf_token : Option String
  dataset : Option String
  data_b64 : Option String
  config : ConfigMap
  gpu : String
  timeout_s : Int
deriving DecidableEq, Repr

/-- Arguments of `TVAE.__init__` / `run_tvae`. -/
structure Config where
  Data : Option NpArray
  Modal_ID : String
  Modal_Key : String
  HF_key : Option String
  HF_repo : String
  dataset_filename : Option String
  gpu : String
  config : Option ConfigMap
  timeout_s : Int
  poll_interval_s : ℚ
  request_timeout_s : Int
deriving DecidableEq, Repr

/-- Oracle for the backend and the wall clock: the `/run` response,
`t0` = the `time.time()` value read when the deadline is computed,
`checkTime n` = the `time.time()` value read at the n-th evaluation of
the loop condition, and `statusAt n` = the outcome of the n-th status
GET attempt. -/
structure Env where
  submit : HttpResult SubmitJson
  t0 : ℚ
  checkTime : ℕ → ℚ
  statusAt : ℕ → HttpResult StatusJson

/-- Payload construction of `TVAE.__init__` (api.py lines 63-75): the
dict literal sets `dataset` from `dataset_filename` and `data_b64` to
null, then, if `Data` is given, overwrites `data_b64` with the encoded
array and `dataset` with null. -/
def buildPayload (encode : NpArray → String) (cfg : Config) : Payload :=
  let base : Payload :=
    { hf_repo := cfg.HF_repo
      hf_token := cfg.HF_key
      dataset := cfg.dataset_filename
      data_b64 := none
      config := cfg.config.getD []
      gpu := cfg.gpu
      timeout_s := cfg.timeout_s }
  match cfg.Data with
  | none => base
  | some d => { base with data_b64 := some (encode d), dataset := none }

/-- The URL the job is POSTed to: `clean_base_url(Modal_ID) + "/run"`. -/
def run_url_of (cfg : Config) : String :=
  clean_base_url cfg.Modal_ID ++ "/run"

/-- Python `js.get("error") or "unknown error"`: both a missing field
and an empty string are falsy. -/
def errText : Option String → String
  | none => "unknown error"
  | some s => if s = "" then "unknown error" else s

/-- Terminal outcome of a run: the result mapping of a succeeded job,
or a raised exception with its kind and message. -/
inductive Outcome where
  | ok (result : ResultMap)
  | err (kind : ErrKind) (msg : String)
deriving DecidableEq, Repr

/-- What the poll loop produced: its outcome, how many GET attempts it
made, and the sleeps it performed, in order. -/
structure LoopResult where
  outcome : Outcome
  gets : ℕ
  sleeps : List ℚ
deriving DecidableEq, Repr

/-- Observable trace of a whole run: outcome, the payload submitted
(none when an argument check failed first), and the POST count, GET
count and sleep list. -/
structure RunTrace where
  outcome : Outcome
  submitted : Option Payload
  posts : ℕ
  gets : ℕ
  sleeps : List ℚ
deriving DecidableEq, Repr

/-- The polling loop of `TVAE.__init__` (api.py lines 97-124).  Each
iteration: re-check `time.time() < deadline`; GET the status; on a
transport exception sleep `min(5.0, poll_interval_s)` and retry; 401
and 403 raise `AuthError`; 404 and other status codes at least 400
raise `IsocoderError`; state `succeeded` breaks with the `result`
field (empty mapping when falsy); state `failed` raises
`RemoteJobError`; any other state sleeps `poll_interval_s` and
continues.  Leaving the loop with no result raises the client
`TimeoutError`.  `fuel` bounds the number of iterations the model can
unfold; `none` means it was exhausted first. -/
def pollLoop (env : Env) (deadline poll : ℚ) :
    ℕ → ℕ → ℕ → List ℚ → Option LoopResult
  | 0, _, _, _ => none
  | fuel + 1, i, gets, sleeps =>
    if env.checkTime i < deadline then
      match env.statusAt i with
      | .exn _ =>
          pollLoop env deadline poll fuel (i + 1) (gets + 1)
            (sleeps ++ [min 5 poll])
      | .resp st text js =>
          if st = 401 ∨ st = 403 then
            some ⟨.err .authError ("Auth failed during polling: " ++ text),
                  gets + 1, sleeps⟩
          else if st = 404 then
            some ⟨.err .isocoderError
                    "Unknown job_id (was state lost on backend?)",
                  gets + 1, sleeps⟩
          else if 400 ≤ st then
            some ⟨.err .isocoderError
                    ("Backend /status error " ++ toString st ++ ": " ++ text),
                  gets + 1, sleeps⟩
          else if js.state = some "succeeded" then
            some ⟨.ok (js.result.getD []), gets + 1, sleeps⟩
          else if js.state = some "failed" then
            some ⟨.err .remoteJobError
                    ("Remote job failed: " ++ errText js.error),
                  gets + 1, sleeps⟩
          else
            pollLoop env deadline poll fuel (i + 1) (gets + 1)
              (sleeps ++ [poll])
    else
      some ⟨.err .clientTimeout "TVAE remote job timeout", gets, sleeps⟩

/-- The whole of `TVAE.__init__` (api.py lines 47-129), which is also
the body of the functional helper `run_tvae`: argument checks (raising
the builtin `ValueError` before any network call), payload
construction, the submit POST with its error branches, then the poll
loop against the deadline `t0 + timeout_s`. -/
def run_tvae (encode : NpArray → String) (cfg : Config) (env : Env)
    (fuel : ℕ) : Option RunTrace :=
  if cfg.HF_repo = "" then
    some ⟨.err .valueError "HF_repo is required", none, 0, 0, []⟩
  else if cfg.Modal_ID = "" then
    some ⟨.err .valueError "Modal_ID (backend base URL) is required",
          none, 0, 0, []⟩
  else if cfg.Modal_Key = "" then
    some ⟨.err .valueError "Modal_Key (bearer) is required", none, 0, 0, []⟩
  else if cfg.Data = none ∧ cfg.dataset_filename = none then
    some ⟨.err .valueError "Provide either Data (numpy array) or dataset_filename",
          none, 0, 0, []⟩
  else
    let payload := buildPayload encode cfg
    match env.submit with
    | .exn msg =>
        some ⟨.err .isocoderError ("Failed to contact backend /run: " ++ msg),
              some payload, 1, 0, []⟩
    | .resp st text body =>
        if st = 401 ∨ st = 403 then
          some ⟨.err .authError ("Auth failed: " ++ text),
                some payload, 1, 0, []⟩
        else if 400 ≤ st then
          some ⟨.err .isocoderError
                  ("Backend /run error " ++ toString st ++ ": " ++ text),
                some payload, 1, 0, []⟩
        else
          match body.job_id with
          | none =>
              some ⟨.err .isocoderError "Backend /run missing job_id",
                    some payload, 1, 0, []⟩
          | some jid =>
              if jid = "" then
                some ⟨.err .isocoderError "Backend /run missing job_id",
                      some payload, 1, 0, []⟩
              else
                (pollLoop env (env.t0 + (cfg.timeout_s : ℚ))
                    cfg.poll_interval_s fuel 0 0 []).map
                  fun r => ⟨r.outcome, some payload, 1, r.gets, r.sleeps⟩

/-- The n-th status GET attempt lets the loop continue (no break, no
raise): a transport exception, or a response with status below 400
whose state is neither `succeeded` nor `failed`. -/
def continuesAt (env : Env) (n : ℕ) : Bool :=
  match env.statusAt n with
  | .exn _ => true
  | .resp st _ js =>
      decide (st < 400) && !(js.state = some "succeeded")
        && !(js.state = some "failed")

/-- The sleep the n-th GET attempt is followed by when the loop
continues: `min(5.0, poll)` after a transport exception,
`poll` after a non-terminal state. -/
def sleepAmt (env : Env) (poll : ℚ) (n : ℕ) : ℚ :=
  match env.statusAt n with
  | .exn _ => min 5 poll
  | .resp _ _ _ => poll

/-- The four argument checks of `TVAE.__init__` all pass. -/
def validConfig (cfg : Config) : Prop :=
  cfg.HF_repo ≠ "" ∧ cfg.Modal_ID ≠ "" ∧ cfg.Modal_Key ≠ "" ∧
    ¬(cfg.Data = none ∧ cfg.dataset_filename = none)

instance (cfg : Config) : Decidable (validConfig cfg) := by
  unfold validConfig; infer_instance

/-! ## Basic step lemmas for the poll loop -/

/-- One continuing iteration: within the deadline, a GET attempt that
neither breaks nor raises advances the loop by one attempt and one
sleep. -/
theorem pollLoop_continue_step (env : Env) (d p : ℚ) (fuel i gets : ℕ)
    (sleeps : List ℚ) (hc : continuesAt env i = true)
    (ht : env.checkTime i < d) :
    pollLoop env d p (fuel + 1) i gets sleeps =
      pollLoop env d p fuel (i + 1) (gets + 1)
        (sleeps ++ [sleepAmt env p i]) := by
  unfold continuesAt at hc
  cases hs : env.statusAt i with
  | exn m =>
      simp only [pollLoop, if_pos ht, hs, sleepAmt]
  | resp st text js =>
      rw [hs] at hc
      simp only [Bool.and_eq_true, decide_eq_true_eq, Bool.not_eq_true',
        decide_eq_false_iff_not] at hc
      obtain ⟨⟨h1, h2⟩, h3⟩ := hc
      simp only [pollLoop, if_pos ht, hs, sleepAmt]
      rw [if_neg (by omega : ¬(st = 401 ∨ st = 403)),
        if_neg (by omega : ¬st = 404), if_neg (by omega : ¬400 ≤ st),
        if_neg h2, if_neg h3]

/-- Leaving the loop at the deadline: when the clock check fails, the
loop stops with the client timeout error and no further GET. -/
theorem pollLoop_deadline_step (env : Env) (d p : ℚ) (fuel i gets : ℕ)
    (sleeps : List ℚ) (ht : ¬env.checkTime i < d) :
    pollLoop env d p (fuel + 1) i gets sleeps =
      some ⟨.err .clientTimeout "TVAE remote job timeout", gets, sleeps⟩ := by
  simp only [pollLoop, if_neg ht]

/-- Breaking on `state == "succeeded"`: the loop returns the `result`
field, defaulting to the empty mapping. -/
theorem pollLoop_success_step (env : Env) (d p : ℚ) (fuel i gets : ℕ)
    (sleeps : List ℚ) (st : ℕ) (text : String) (js : StatusJson)
    (ht : env.checkTime i < d) (hs : env.statusAt i = .resp st text js)
    (hok : st < 400) (hsucc : js.state = some "succeeded") :
    pollLoop env d p (fuel + 1) i gets sleeps =
      some ⟨.ok (js.result.getD []), gets + 1, sleeps⟩ := by
  simp only [pollLoop, if_pos ht, hs]
  rw [if_neg (by omega : ¬(st = 401 ∨ st = 403)),
    if_neg (by omega : ¬st = 404), if_neg (by omega : ¬400 ≤ st),
    if_pos hsucc]

/-- Raising on `state == "failed"`: the loop raises `RemoteJobError`
with the `error` field (or its default). -/
theorem pollLoop_failed_step (env : Env) (d p : ℚ) (fuel i gets : ℕ)
    (sleeps : List ℚ) (st : ℕ) (text : String) (js : StatusJson)
    (ht : env.checkTime i < d) (hs : env.statusAt i = .resp st text js)
    (hok : st < 400) (hfail : js.state = some "failed") :
    pollLoop env d p (fuel + 1) i gets sleeps =
      some ⟨.err .remoteJobError ("Remote job failed: " ++ errText js.error),
            gets + 1, sleeps⟩ := by
  simp only [pollLoop, if_pos ht, hs]
  rw [if_neg (by omega : ¬(st = 401 ∨ st = 403)),
    if_neg (by omega : ¬st = 404), if_neg (by omega : ¬400 ≤ st),
    if_neg (by rw [hfail]; exact (by decide : ¬(some "failed" = some "succeeded"))),
    if_pos hfail]

/-- Raising on HTTP 401/403 during polling. -/
theorem pollLoop_auth_step (env : Env) (d p : ℚ) (fuel i gets : ℕ)
    (sleeps : List ℚ) (st : ℕ) (text : String) (js : StatusJson)
    (ht : env.checkTime i < d) (hs : env.statusAt i = .resp st text js)
    (hauth : st = 401 ∨ st = 403) :
    pollLoop env d p (fuel + 1) i gets sleeps =
      some ⟨.err .authError ("Auth failed during polling: " ++ text),
            gets + 1, sleeps⟩ := by
  simp only [pollLoop, if_pos ht, hs]
  rw [if_pos hauth]

/-- Skipping `n` continuing iterations in one jump: the loop advances
by `n` GET attempts and appends the corresponding `n` sleeps. -/
theorem pollLoop_skip (env : Env) (d p : ℚ) (n : ℕ) :
    ∀ (fuel i gets : ℕ) (sleeps : List ℚ),
    (∀ j, j < n → continuesAt env (i + j) = true ∧ env.checkTime (i + j) < d) →
    pollLoop env d p (n + fuel) i gets sleeps =
      pollLoop env d p fuel (i + n) (gets + n)
        (sleeps ++ (List.range n).map fun j => sleepAmt env p (i + j)) := by
  induction n with
  | zero => intro fuel i gets sleeps _; simp
  | succ n ih =>
      intro fuel i gets sleeps h
      have h0 := h 0 (Nat.succ_pos n)
      rw [Nat.add_zero] at h0
      have hrest : ∀ j, j < n →
          continuesAt env (i + 1 + j) = true ∧ env.checkTime (i + 1 + j) < d := by
        intro j hj
        have := h (j + 1) (by omega)
        rwa [show i + (j + 1) = i + 1 + j from by omega] at this
      rw [show n + 1 + fuel = (n + fuel) + 1 from by omega,
        pollLoop_continue_step env d p (n + fuel) i gets sleeps h0.1 h0.2,
        ih fuel (i + 1) (gets + 1) (sleeps ++ [sleepAmt env p i]) hrest]
      have e3 : (sleeps ++ [sleepAmt env p i]) ++
            (List.range n).map (fun j => sleepAmt env p (i + 1 + j)) =
          sleeps ++ (List.range (n + 1)).map fun j => sleepAmt env p (i + j) := by
        rw [List.append_assoc, List.range_succ_eq_map, List.map_cons,
          List.map_map, List.singleton_append]
        refine congrArg (fun l => sleeps ++ l) ?_
        refine congrArg₂ List.cons (by rfl) ?_
        exact List.map_congr_left fun j _ => by
          simp only [Function.comp_apply]
          congr 1
          omega
      rw [show i + 1 + n = i + (n + 1) from by omega,
        show gets + 1 + n = gets + (n + 1) from by omega, e3]

/-- Under a valid configuration and a successful submit, the run is
the poll loop against the deadline `t0 + timeout_s`, with one POST and
the submitted payload recorded in the trace. -/
theorem run_reaches_loop (encode : NpArray → String) (cfg : Config)
    (env : Env) (fuel : ℕ) (st : ℕ) (text jid : String)
    (hv : validConfig cfg) (hs : env.submit = .resp st text ⟨some jid⟩)
    (hlt : st < 400) (hj : jid ≠ "") :
    run_tvae encode cfg env fuel =
      (pollLoop env (env.t0 + (cfg.timeout_s : ℚ)) cfg.poll_interval_s
          fuel 0 0 []).map
        fun r => ⟨r.outcome, some (buildPayload encode cfg), 1,
                  r.gets, r.sleeps⟩ := by
  obtain ⟨h1, h2, h3, h4⟩ := hv
  unfold run_tvae
  rw [if_neg h1, if_neg h2, if_neg h3, if_neg h4, hs]
  dsimp only
  rw [if_neg (by omega : ¬(st = 401 ∨ st = 403)),
    if_neg (by omega : ¬400 ≤ st), if_neg hj]

/-- A fixed point of `clean_base_url`: a string that is already
stripped and has no trailing slash is returned unchanged. -/
theorem clean_base_url_fixed (v : String) (h1 : pyStrip v = v)
    (h2 : v.data.getLast? ≠ some '/') : clean_base_url v = v := by
  unfold clean_base_url
  rw [h1, if_neg h2]

/-! ## Concrete fixtures used by closed theorems and witnesses -/

/-- Backend oracle that is never reached past the submit POST: the
POST itself raises a transport exception. -/
def envNull : Env := ⟨.exn "conn", 0, fun _ => 0, fun _ => .exn "net"⟩

/-- Valid configuration except that the dataset repo is empty. -/
def cfgNoRepo : Config :=
  ⟨some [1], "https://e.modal.run", "k", none, "", none, "L4", none,
    3600, 2, 60⟩

/-- Valid configuration except that neither a raw array nor a dataset
filename is supplied. -/
def cfgNoSource : Config :=
  ⟨none, "https://e.modal.run", "k", none, "you/repo", none, "L4", none,
    3600, 2, 60⟩

/-- Configuration whose backend base URL is the single character `/`. -/
def cfgSlashID : Config :=
  ⟨some [1], "/", "k", none, "you/repo", none, "L4", none, 3600, 2, 60⟩

/-- Configuration whose backend base URL is a single space. -/
def cfgBlankID : Config :=
  ⟨some [1], " ", "k", none, "you/repo", none, "L4", none, 3600, 2, 60⟩

/-- Valid configuration supplying both a raw array and a dataset
filename. -/
def cfgBoth : Config :=
  ⟨some [1, 2], "https://e.modal.run", "k", some "hf", "you/repo",
    some "data.csv", "L4", none, 3600, 2, 60⟩

/-! ## Claim theorems -/

/-- C3 counterexample: `clean_base_url` is not idempotent.  On `"//"`
one application yields `"/"`, a second application yields `""`. -/
theorem clean_base_url_not_idempotent :
    clean_base_url (clean_base_url "//") ≠ clean_base_url "//" := by decide

/-- C3 (amended): a single application of `clean_base_url` strips the
surrounding whitespace and then at most one trailing slash; it is
idempotent on every input whose cleaned value is already stripped and
has no trailing slash (but not in general, as removing the one
trailing slash can expose another slash or whitespace). -/
theorem clean_base_url_one_slash_and_conditional_idempotence
    (u v : String) (hv1 : pyStrip (clean_base_url v) = clean_base_url v)
    (hv2 : (clean_base_url v).data.getLast? ≠ some '/') :
    (clean_base_url u = pyStrip u ∨
      ((pyStrip u).data.getLast? = some '/' ∧
        clean_base_url u = ⟨(pyStrip u).data.dropLast⟩)) ∧
    clean_base_url (clean_base_url v) = clean_base_url v := by
  constructor
  · unfold clean_base_url
    split
    · exact Or.inr ⟨by assumption, rfl⟩
    · exact Or.inl rfl
  · exact clean_base_url_fixed _ hv1 hv2

/-- C3 witness: on `"a"` the cleaned value is stripped with no
trailing slash, and a second application indeed changes nothing. -/
theorem clean_base_url_conditional_idempotence_witness :
    (clean_base_url "a//" = pyStrip "a//" ∨
      ((pyStrip "a//").data.getLast? = some '/' ∧
        clean_base_url "a//" = ⟨(pyStrip "a//").data.dropLast⟩)) ∧
    clean_base_url (clean_base_url "a") = clean_base_url "a" :=
  clean_base_url_one_slash_and_conditional_idempotence "a//" "a"
    (by decide) (by decide)

/-- C8: when both a raw array and a dataset filename are supplied, the
submitted JSON body carries the encoded array in `data_b64` and null
in `dataset` — the raw array wins. -/
theorem buildPayload_raw_array_wins (encode : NpArray → String)
    (cfg : Config) (d : NpArray) (f : String)
    (hd : cfg.Data = some d) ( _hf : cfg.dataset_filename = some f) :
    (buildPayload encode cfg).data_b64 = some (encode d) ∧
    (buildPayload encode cfg).dataset = none := by
  unfold buildPayload
  rw [hd]
  exact ⟨rfl, rfl⟩

/-- C8 witness: a configuration with both `Data = [1, 2]` and
`dataset_filename = "data.csv"` submits the encoded array and a null
dataset. -/
theorem buildPayload_raw_array_wins_witness :
    (buildPayload (fun _ => "B64") cfgBoth).data_b64 =
      some ((fun _ => "B64") ([1, 2] : NpArray)) ∧
    (buildPayload (fun _ => "B64") cfgBoth).dataset = none :=
  buildPayload_raw_array_wins (fun _ => "B64") cfgBoth [1, 2] "data.csv"
    rfl rfl

/-- C2 counterexample: a configuration with an empty dataset repo
raises the builtin `ValueError` before any network call — that
exception class is not a subtype of `IsocoderError`, contrary to the
claim. -/
theorem run_tvae_config_error_not_isocoder_subclass :
    run_tvae (fun _ => "B64") cfgNoRepo envNull 1 =
      some ⟨.err .valueError "HF_repo is required", none, 0, 0, []⟩ ∧
    subclassOfIsocoderError .valueError = false :=
  ⟨by decide, rfl⟩

/-- C2 (amended): a configuration missing the dataset repo, the base
URL, the bearer key, or both dataset sources raises the builtin
`ValueError` before any network call (zero POSTs and zero GETs); that
error is not a subtype of the base client error `IsocoderError`. -/
theorem run_tvae_missing_arg_raises_builtin_valueError
    (encode : NpArray → String) (cfg : Config) (env : Env) (fuel : ℕ)
    (h : cfg.HF_repo = "" ∨ cfg.Modal_ID = "" ∨ cfg.Modal_Key = "" ∨
      (cfg.Data = none ∧ cfg.dataset_filename = none)) :
    (∃ msg, run_tvae encode cfg env fuel =
        some ⟨.err .valueError msg, none, 0, 0, []⟩) ∧
    subclassOfIsocoderError .valueError = false := by
  refine ⟨?_, rfl⟩
  unfold run_tvae
  by_cases h1 : cfg.HF_repo = ""
  · exact ⟨_, by rw [if_pos h1]⟩
  · rw [if_neg h1]
    by_cases h2 : cfg.Modal_ID = ""
    · exact ⟨_, by rw [if_pos h2]⟩
    · rw [if_neg h2]
      by_cases h3 : cfg.Modal_Key = ""
      · exact ⟨_, by rw [if_pos h3]⟩
      · rw [if_neg h3]
        have h4 : cfg.Data = none ∧ cfg.dataset_filename = none := by
          tauto
        exact ⟨_, by rw [if_pos h4]⟩

/-- C2 witness: a configuration with neither a raw array nor a dataset
filename raises `ValueError` with no network traffic. -/
theorem run_tvae_missing_arg_raises_builtin_valueError_witness :
    (∃ msg, run_tvae (fun _ => "B64") cfgNoSource envNull 1 =
        some ⟨.err .valueError msg, none, 0, 0, []⟩) ∧
    subclassOfIsocoderError .valueError = false :=
  run_tvae_missing_arg_raises_builtin_valueError (fun _ => "B64")
    cfgNoSource envNull 1 (Or.inr (Or.inr (Or.inr ⟨rfl, rfl⟩)))

/-- C9: the non-empty check runs on the raw `Modal_ID` before
normalization, so `"/"` and `" "` pass validation although their
normalized base URL is empty and the run URL degenerates to `"/run"`;
with such a configuration the submit POST is attempted (one POST in
the trace, no `ValueError`). -/
theorem modal_id_checked_before_normalization :
    clean_base_url "/" = "" ∧ clean_base_url " " = "" ∧
    run_url_of cfgSlashID = "/run" ∧ run_url_of cfgBlankID = "/run" ∧
    run_tvae (fun _ => "B64") cfgSlashID envNull 1 =
      some ⟨.err .isocoderError "Failed to contact backend /run: conn",
            some (buildPayload (fun _ => "B64") cfgSlashID), 1, 0, []⟩ ∧
    run_tvae (fun _ => "B64") cfgBlankID envNull 1 =
      some ⟨.err .isocoderError "Failed to contact backend /run: conn",
            some (buildPayload (fun _ => "B64") cfgBlankID), 1, 0, []⟩ :=
  ⟨by decide, by decide, by decide, by decide, by decide, by decide⟩

/-- Raising on HTTP 404 during polling ("unknown job_id"). -/
theorem pollLoop_notfound_step (env : Env) (d p : ℚ) (fuel i gets : ℕ)
    (sleeps : List ℚ) (st : ℕ) (text : String) (js : StatusJson)
    (ht : env.checkTime i < d) (hs : env.statusAt i = .resp st text js)
    (h404 : st = 404) :
    pollLoop env d p (fuel + 1) i gets sleeps =
      some ⟨.err .isocoderError "Unknown job_id (was state lost on backend?)",
            gets + 1, sleeps⟩ := by
  simp only [pollLoop, if_pos ht, hs]
  rw [if_neg (by omega : ¬(st = 401 ∨ st = 403)), if_pos h404]

/-- Raising on any other HTTP status of at least 400 during polling. -/
theorem pollLoop_httpError_step (env : Env) (d p : ℚ) (fuel i gets : ℕ)
    (sleeps : List ℚ) (st : ℕ) (text : String) (js : StatusJson)
    (ht : env.checkTime i < d) (hs : env.statusAt i = .resp st text js)
    (hge : 400 ≤ st) (hn1 : ¬(st = 401 ∨ st = 403)) (hn2 : ¬st = 404) :
    pollLoop env d p (fuel + 1) i gets sleeps =
      some ⟨.err .isocoderError
              ("Backend /status error " ++ toString st ++ ": " ++ text),
            gets + 1, sleeps⟩ := by
  simp only [pollLoop, if_pos ht, hs]
  rw [if_neg hn1, if_neg hn2, if_pos hge]

/-- C1: with a 2xx submit response carrying a job id, a first 2xx
status poll in state `running` and a second in state `succeeded` with
result mapping `x = 1` (both checks inside the deadline), the run
returns the result mapping `x = 1` after exactly 2 GET calls and one
POST, sleeping exactly once, for `poll_interval_s`, between the two
polls. -/
theorem run_tvae_success_after_two_polls
    (encode : NpArray → String) (cfg : Config) (env : Env)
    (fuel st s0 s1 : ℕ) (text textA textB jid : String)
    (hv : validConfig cfg)
    (hs : env.submit = .resp st text ⟨some jid⟩) (hst : st < 400)
    (hj : jid ≠ "")
    (h0 : env.statusAt 0 = .resp s0 textA ⟨some "running", none, none⟩)
    (h0r : 200 ≤ s0 ∧ s0 < 300)
    (h1 : env.statusAt 1 =
      .resp s1 textB ⟨some "succeeded", some [("x", 1)], none⟩)
    (h1r : 200 ≤ s1 ∧ s1 < 300)
    (hc0 : env.checkTime 0 < env.t0 + (cfg.timeout_s : ℚ))
    (hc1 : env.checkTime 1 < env.t0 + (cfg.timeout_s : ℚ)) :
    run_tvae encode cfg env (fuel + 2) =
      some ⟨.ok [("x", 1)], some (buildPayload encode cfg), 1, 2,
            [cfg.poll_interval_s]⟩ := by
  have hcont0 : continuesAt env 0 = true := by
    unfold continuesAt
    rw [h0]
    simp only [Bool.and_eq_true, decide_eq_true_eq, Bool.not_eq_true',
      decide_eq_false_iff_not]
    refine ⟨⟨by omega, by simp⟩, by simp⟩
  have hsl0 : sleepAmt env cfg.poll_interval_s 0 = cfg.poll_interval_s := by
    unfold sleepAmt
    rw [h0]
  rw [run_reaches_loop encode cfg env (fuel + 2) st text jid hv hs hst hj,
    show fuel + 2 = (fuel + 1) + 1 from by omega,
    pollLoop_continue_step env (env.t0 + (cfg.timeout_s : ℚ))
      cfg.poll_interval_s (fuel + 1) 0 0 [] hcont0 hc0]
  norm_num
  rw [pollLoop_success_step env (env.t0 + (cfg.timeout_s : ℚ))
      cfg.poll_interval_s fuel 1 1 [sleepAmt env cfg.poll_interval_s 0]
      s1 textB ⟨some "succeeded", some [("x", 1)], none⟩ hc1 h1
      (by omega) rfl]
  simp [hsl0]

/-- C10: with a non-positive `timeout_s`, a valid configuration and a
successful submit, the deadline `t0 + timeout_s` is already past at
the first loop check (the clock never runs backwards past `t0`), so
the loop body never executes: the submit POST is performed, zero
status GETs are issued, and the client `TimeoutError` is raised. -/
theorem run_tvae_nonpositive_timeout_skips_polling
    (encode : NpArray → String) (cfg : Config) (env : Env)
    (fuel st : ℕ) (text jid : String)
    (hv : validConfig cfg)
    (hs : env.submit = .resp st text ⟨some jid⟩) (hst : st < 400)
    (hj : jid ≠ "") (hto : cfg.timeout_s ≤ 0)
    (hmono : env.t0 ≤ env.checkTime 0) :
    run_tvae encode cfg env (fuel + 1) =
      some ⟨.err .clientTimeout "TVAE remote job timeout",
            some (buildPayload encode cfg), 1, 0, []⟩ := by
  have hcast : (cfg.timeout_s : ℚ) ≤ 0 := by exact_mod_cast hto
  rw [run_reaches_loop encode cfg env (fuel + 1) st text jid hv hs hst hj,
    pollLoop_deadline_step env (env.t0 + (cfg.timeout_s : ℚ))
      cfg.poll_interval_s fuel 0 0 [] (not_lt.mpr (by linarith))]
  rfl

/-- C4: when the first `n` status polls all leave the loop running and
the clock check at iteration `n` finds the deadline `t0 + timeout_s`
passed, the run raises the client `TimeoutError` (a subtype of
`IsocoderError`) and returns no result. -/
theorem run_tvae_deadline_elapse_raises_client_timeout
    (encode : NpArray → String) (cfg : Config) (env : Env)
    (n fuel st : ℕ) (text jid : String)
    (hv : validConfig cfg)
    (hs : env.submit = .resp st text ⟨some jid⟩) (hst : st < 400)
    (hj : jid ≠ "")
    (hcont : ∀ j, j < n → continuesAt env j = true ∧
      env.checkTime j < env.t0 + (cfg.timeout_s : ℚ))
    (hd : ¬env.checkTime n < env.t0 + (cfg.timeout_s : ℚ)) :
    run_tvae encode cfg env (n + (fuel + 1)) =
      some ⟨.err .clientTimeout "TVAE remote job timeout",
            some (buildPayload encode cfg), 1, n,
            (List.range n).map fun j =>
              sleepAmt env cfg.poll_interval_s j⟩ ∧
    subclassOfIsocoderError .clientTimeout = true := by
  refine ⟨?_, rfl⟩
  rw [run_reaches_loop encode cfg env (n + (fuel + 1)) st text jid hv hs
      hst hj,
    pollLoop_skip env (env.t0 + (cfg.timeout_s : ℚ)) cfg.poll_interval_s n
      (fuel + 1) 0 0 [] (fun j hj => by simpa using hcont j hj),
    pollLoop_deadline_step env (env.t0 + (cfg.timeout_s : ℚ))
      cfg.poll_interval_s fuel (0 + n) (0 + n) _ (by simpa using hd)]
  simp

/-- C5: when the first `n` polls leave the loop running and poll `n`
returns 2xx with state `failed`, the run raises `RemoteJobError`; the
message extends the `error` field of the response (or `unknown error`
when that field is absent) and the loop issues no further GET. -/
theorem run_tvae_failed_state_raises_remote_job_error
    (encode : NpArray → String) (cfg : Config) (env : Env)
    (n fuel st sn : ℕ) (text tn jid : String) (js : StatusJson)
    (hv : validConfig cfg)
    (hs : env.submit = .resp st text ⟨some jid⟩) (hst : st < 400)
    (hj : jid ≠ "")
    (hcont : ∀ j, j < n → continuesAt env j = true ∧
      env.checkTime j < env.t0 + (cfg.timeout_s : ℚ))
    (hcn : env.checkTime n < env.t0 + (cfg.timeout_s : ℚ))
    (hsn : env.statusAt n = .resp sn tn js)
    (h2xx : 200 ≤ sn ∧ sn < 300) (hfail : js.state = some "failed") :
    run_tvae encode cfg env (n + (fuel + 1)) =
      some ⟨.err .remoteJobError
              ("Remote job failed: " ++ errText js.error),
            some (buildPayload encode cfg), 1, n + 1,
            (List.range n).map fun j =>
              sleepAmt env cfg.poll_interval_s j⟩ ∧
    (∀ e, js.error = some e → e ≠ "" →
      "Remote job failed: " ++ errText js.error =
        "Remote job failed: " ++ e) ∧
    (js.error = none → errText js.error = "unknown error") := by
  refine ⟨?_, ?_, ?_⟩
  · rw [run_reaches_loop encode cfg env (n + (fuel + 1)) st text jid hv hs
        hst hj,
      pollLoop_skip env (env.t0 + (cfg.timeout_s : ℚ)) cfg.poll_interval_s
        n (fuel + 1) 0 0 [] (fun j hj => by simpa using hcont j hj),
      pollLoop_failed_step env (env.t0 + (cfg.timeout_s : ℚ))
        cfg.poll_interval_s fuel (0 + n) (0 + n) _ sn tn js
        (by simpa using hcn) (by simpa using hsn) (by omega) hfail]
    simp
  · intro e he hne
    simp [errText, he, hne]
  · intro he
    simp [errText, he]

/-- C6: HTTP 401/403 on the submit POST raises `AuthError` carrying
the response body text with zero status GETs issued (run against
`env1`); HTTP 401/403 on a status GET raises `AuthError` carrying that
response body text and terminates the loop at that GET — it is not
retried (run against `env2`). -/
theorem run_tvae_auth_errors_terminal
    (encode : NpArray → String) (cfg : Config) (env1 env2 : Env)
    (fuel1 fuel2 n st1 st2 sn : ℕ) (text1 text2 tn jid : String)
    (body1 : SubmitJson) (js : StatusJson)
    (hv : validConfig cfg)
    (hsub1 : env1.submit = .resp st1 text1 body1)
    (hauth1 : st1 = 401 ∨ st1 = 403)
    (hsub2 : env2.submit = .resp st2 text2 ⟨some jid⟩)
    (hst2 : st2 < 400) (hj2 : jid ≠ "")
    (hcont2 : ∀ j, j < n → continuesAt env2 j = true ∧
      env2.checkTime j < env2.t0 + (cfg.timeout_s : ℚ))
    (hcn2 : env2.checkTime n < env2.t0 + (cfg.timeout_s : ℚ))
    (hsn2 : env2.statusAt n = .resp sn tn js)
    (hauth2 : sn = 401 ∨ sn = 403) :
    run_tvae encode cfg env1 fuel1 =
      some ⟨.err .authError ("Auth failed: " ++ text1),
            some (buildPayload encode cfg), 1, 0, []⟩ ∧
    run_tvae encode cfg env2 (n + (fuel2 + 1)) =
      some ⟨.err .authError ("Auth failed during polling: " ++ tn),
            some (buildPayload encode cfg), 1, n + 1,
            (List.range n).map fun j =>
              sleepAmt env2 cfg.poll_interval_s j⟩ := by
  obtain ⟨h1, h2, h3, h4⟩ := hv
  constructor
  · unfold run_tvae
    rw [if_neg h1, if_neg h2, if_neg h3, if_neg h4, hsub1]
    dsimp only
    rw [if_pos hauth1]
  · rw [run_reaches_loop encode cfg env2 (n + (fuel2 + 1)) st2 text2 jid
        ⟨h1, h2, h3, h4⟩ hsub2 hst2 hj2,
      pollLoop_skip env2 (env2.t0 + (cfg.timeout_s : ℚ))
        cfg.poll_interval_s n (fuel2 + 1) 0 0 []
        (fun j hj => by simpa using hcont2 j hj),
      pollLoop_auth_step env2 (env2.t0 + (cfg.timeout_s : ℚ))
        cfg.poll_interval_s fuel2 (0 + n) (0 + n) _ sn tn js
        (by simpa using hcn2) (by simpa using hsn2) hauth2]
    simp

/-- C7: a transport exception on a status GET never terminates the
loop.  First conjunct: within the deadline, an iteration whose GET
raises a transport exception continues the loop after recording a
sleep of `min(5.0, poll_interval_s)`.  Second conjunct: a run whose
first poll raises a transport exception and whose second poll succeeds
within the deadline still returns the result.  Third conjunct: every
other failure class on a poll (HTTP >= 400, or a terminal state) stops
the loop at that GET, so the transport exception is the only retried
failure. -/
theorem pollLoop_transport_exception_retried
    (encode : NpArray → String) (cfg : Config) (env1 env2 env3 : Env)
    (d1 p1 d3 p3 : ℚ) (i1 g1 fuel1 fuel2 i3 g3 fuel3 : ℕ)
    (s1l s3l : List ℚ) (m1 m2 : String)
    (st s1 s3 : ℕ) (text textB t3 jid : String) (js js3 : StatusJson)
    (ht1 : env1.checkTime i1 < d1) (hx1 : env1.statusAt i1 = .exn m1)
    (hv : validConfig cfg)
    (hsub : env2.submit = .resp st text ⟨some jid⟩) (hst : st < 400)
    (hj : jid ≠ "")
    (hx2 : env2.statusAt 0 = .exn m2)
    (h1 : env2.statusAt 1 = .resp s1 textB js)
    (h1r : s1 < 400) (hsucc : js.state = some "succeeded")
    (hc0 : env2.checkTime 0 < env2.t0 + (cfg.timeout_s : ℚ))
    (hc1 : env2.checkTime 1 < env2.t0 + (cfg.timeout_s : ℚ))
    (ht3 : env3.checkTime i3 < d3) (hr3 : env3.statusAt i3 = .resp s3 t3 js3)
    (hbad : 400 ≤ s3 ∨ js3.state = some "succeeded" ∨
      js3.state = some "failed") :
    pollLoop env1 d1 p1 (fuel1 + 1) i1 g1 s1l =
      pollLoop env1 d1 p1 fuel1 (i1 + 1) (g1 + 1) (s1l ++ [min 5 p1]) ∧
    run_tvae encode cfg env2 (fuel2 + 2) =
      some ⟨.ok (js.result.getD []), some (buildPayload encode cfg), 1, 2,
            [min 5 cfg.poll_interval_s]⟩ ∧
    (∃ res, pollLoop env3 d3 p3 (fuel3 + 1) i3 g3 s3l = some res ∧
      res.gets = g3 + 1) := by
  refine ⟨?_, ?_, ?_⟩
  · have hc : continuesAt env1 i1 = true := by
      unfold continuesAt
      rw [hx1]
    have := pollLoop_continue_step env1 d1 p1 fuel1 i1 g1 s1l hc ht1
    rwa [show sleepAmt env1 p1 i1 = min 5 p1 from by
      unfold sleepAmt; rw [hx1]] at this
  · have hcont0 : continuesAt env2 0 = true := by
      unfold continuesAt
      rw [hx2]
    have hsl0 : sleepAmt env2 cfg.poll_interval_s 0 =
        min 5 cfg.poll_interval_s := by
      unfold sleepAmt
      rw [hx2]
    rw [run_reaches_loop encode cfg env2 (fuel2 + 2) st text jid hv hsub
        hst hj,
      show fuel2 + 2 = (fuel2 + 1) + 1 from by omega,
      pollLoop_continue_step env2 (env2.t0 + (cfg.timeout_s : ℚ))
        cfg.poll_interval_s (fuel2 + 1) 0 0 [] hcont0 hc0]
    norm_num
    rw [pollLoop_success_step env2 (env2.t0 + (cfg.timeout_s : ℚ))
        cfg.poll_interval_s fuel2 1 1 [sleepAmt env2 cfg.poll_interval_s 0]
        s1 textB js hc1 h1 h1r hsucc]
    simp [hsl0]
  · by_cases hA : s3 = 401 ∨ s3 = 403
    · exact ⟨_, pollLoop_auth_step env3 d3 p3 fuel3 i3 g3 s3l s3 t3 js3
        ht3 hr3 hA, rfl⟩
    · by_cases h404 : s3 = 404
      · exact ⟨_, pollLoop_notfound_step env3 d3 p3 fuel3 i3 g3 s3l s3 t3
          js3 ht3 hr3 h404, rfl⟩
      · by_cases hge : 400 ≤ s3
        · exact ⟨_, pollLoop_httpError_step env3 d3 p3 fuel3 i3 g3 s3l s3
            t3 js3 ht3 hr3 hge hA h404, rfl⟩
        · rcases hbad with h | h | h
          · omega
          · exact ⟨_, pollLoop_success_step env3 d3 p3 fuel3 i3 g3 s3l s3
              t3 js3 ht3 hr3 (by omega) h, rfl⟩
          · exact ⟨_, pollLoop_failed_step env3 d3 p3 fuel3 i3 g3 s3l s3
              t3 js3 ht3 hr3 (by omega) h, rfl⟩

/-! ## Fixtures and witnesses for the polling claims -/

/-- Fully valid configuration used by the polling witnesses. -/
def cfgValid : Config :=
  ⟨some [1], "https://e.modal.run", "k", none, "you/repo", none, "L4",
    none, 3600, 2, 60⟩

/-- The valid configuration with `timeout_s = 0`. -/
def cfgZeroTimeout : Config :=
  ⟨some [1], "https://e.modal.run", "k", none, "you/repo", none, "L4",
    none, 0, 2, 60⟩

/-- Status body of a succeeded job with result mapping `x = 1`. -/
def statusSucceededX1 : StatusJson := ⟨some "succeeded", some [("x", 1)], none⟩

/-- Backend accepting the job and answering `running` then
`succeeded` with result `x = 1`; the clock never advances. -/
def envTwoPolls : Env :=
  ⟨.resp 200 "" ⟨some "abc"⟩, 0, fun _ => 0, fun n =>
    if n = 0 then .resp 200 "" ⟨some "running", none, none⟩
    else .resp 200 "" statusSucceededX1⟩

/-- Backend accepting the job and always answering `running`; the
clock jumps past the deadline after the first check. -/
def envTimeoutAfterOne : Env :=
  ⟨.resp 200 "" ⟨some "abc"⟩, 0, fun n => if n = 0 then 0 else 10000,
    fun _ => .resp 200 "" ⟨some "running", none, none⟩⟩

/-- Backend accepting the job and reporting `failed` with error
`oom` on the first poll. -/
def envFailOom : Env :=
  ⟨.resp 200 "" ⟨some "abc"⟩, 0, fun _ => 0,
    fun _ => .resp 200 "" ⟨some "failed", none, some "oom"⟩⟩

/-- Backend rejecting the submit POST with HTTP 403. -/
def envAuth403 : Env :=
  ⟨.resp 403 "denied" ⟨none⟩, 0, fun _ => 0, fun _ => .exn "x"⟩

/-- Backend accepting the job but answering HTTP 401 on the first
status poll. -/
def envAuthPoll : Env :=
  ⟨.resp 200 "" ⟨some "abc"⟩, 0, fun _ => 0,
    fun _ => .resp 401 "expired" ⟨none, none, none⟩⟩

/-- Backend whose status GETs always raise a transport exception. -/
def envExnOnly : Env := ⟨.exn "", 0, fun _ => 0, fun _ => .exn "net"⟩

/-- Backend accepting the job; the first poll raises a transport
exception, the second succeeds with result `x = 1`. -/
def envExnThenOk : Env :=
  ⟨.resp 200 "" ⟨some "abc"⟩, 0, fun _ => 0, fun n =>
    if n = 0 then .exn "net" else .resp 200 "" statusSucceededX1⟩

/-- Backend whose status GETs answer HTTP 500. -/
def envServerErr : Env :=
  ⟨.exn "", 0, fun _ => 0, fun _ => .resp 500 "boom" ⟨none, none, none⟩⟩

/-- C1 witness: the concrete two-poll scenario returns `x = 1` with 2
GETs and a single sleep of the poll interval. -/
theorem run_tvae_success_after_two_polls_witness :
    run_tvae (fun _ => "B64") cfgValid envTwoPolls 2 =
      some ⟨.ok [("x", 1)], some (buildPayload (fun _ => "B64") cfgValid),
            1, 2, [cfgValid.poll_interval_s]⟩ :=
  run_tvae_success_after_two_polls (fun _ => "B64") cfgValid envTwoPolls
    0 200 200 200 "" "" "" "abc" (by decide) rfl (by omega) (by decide)
    rfl (by omega) rfl (by omega) (by norm_num [envTwoPolls, cfgValid])
    (by norm_num [envTwoPolls, cfgValid])

/-- C10 witness: with `timeout_s = 0` the submit POST happens, no GET
is issued, and the client `TimeoutError` is raised at once. -/
theorem run_tvae_nonpositive_timeout_skips_polling_witness :
    run_tvae (fun _ => "B64") cfgZeroTimeout envTwoPolls 1 =
      some ⟨.err .clientTimeout "TVAE remote job timeout",
            some (buildPayload (fun _ => "B64") cfgZeroTimeout), 1, 0, []⟩ :=
  run_tvae_nonpositive_timeout_skips_polling (fun _ => "B64")
    cfgZeroTimeout envTwoPolls 0 200 "" "abc" (by decide) rfl (by omega)
    (by decide) (by decide) (by norm_num [envTwoPolls])

/-- C4 witness: one `running` poll, then the clock passes the
deadline; the run times out with one GET and one sleep recorded. -/
theorem run_tvae_deadline_elapse_raises_client_timeout_witness :
    run_tvae (fun _ => "B64") cfgValid envTimeoutAfterOne 2 =
      some ⟨.err .clientTimeout "TVAE remote job timeout",
            some (buildPayload (fun _ => "B64") cfgValid), 1, 1,
            (List.range 1).map fun j =>
              sleepAmt envTimeoutAfterOne cfgValid.poll_interval_s j⟩ ∧
    subclassOfIsocoderError .clientTimeout = true :=
  run_tvae_deadline_elapse_raises_client_timeout (fun _ => "B64") cfgValid
    envTimeoutAfterOne 1 0 200 "" "abc" (by decide) rfl (by omega)
    (by decide)
    (fun j hj => by
      have hj0 : j = 0 := by omega
      subst hj0
      exact ⟨by decide, by norm_num [envTimeoutAfterOne, cfgValid]⟩)
    (by norm_num [envTimeoutAfterOne, cfgValid])

/-- C5 witness: a first poll reporting `failed` with error `oom`
raises `RemoteJobError` mentioning `oom` after exactly one GET. -/
theorem run_tvae_failed_state_raises_remote_job_error_witness :
    (run_tvae (fun _ => "B64") cfgValid envFailOom 1 =
      some ⟨.err .remoteJobError ("Remote job failed: " ++
              errText (⟨some "failed", none, some "oom"⟩ : StatusJson).error),
            some (buildPayload (fun _ => "B64") cfgValid), 1, 1,
            (List.range 0).map fun j =>
              sleepAmt envFailOom cfgValid.poll_interval_s j⟩) ∧
    (∀ e, (⟨some "failed", none, some "oom"⟩ : StatusJson).error = some e →
      e ≠ "" →
      "Remote job failed: " ++
          errText (⟨some "failed", none, some "oom"⟩ : StatusJson).error =
        "Remote job failed: " ++ e) ∧
    ((⟨some "failed", none, some "oom"⟩ : StatusJson).error = none →
      errText (⟨some "failed", none, some "oom"⟩ : StatusJson).error =
        "unknown error") :=
  run_tvae_failed_state_raises_remote_job_error (fun _ => "B64") cfgValid
    envFailOom 0 0 200 200 "" "" "abc" ⟨some "failed", none, some "oom"⟩
    (by decide) rfl (by omega) (by decide)
    (fun j hj => absurd hj (by omega))
    (by norm_num [envFailOom, cfgValid]) rfl (by omega) rfl

/-- C6 witness: HTTP 403 at submit raises `AuthError` with zero GETs;
HTTP 401 on the first poll raises `AuthError` after exactly one GET. -/
theorem run_tvae_auth_errors_terminal_witness :
    run_tvae (fun _ => "B64") cfgValid envAuth403 1 =
      some ⟨.err .authError ("Auth failed: " ++ "denied"),
            some (buildPayload (fun _ => "B64") cfgValid), 1, 0, []⟩ ∧
    run_tvae (fun _ => "B64") cfgValid envAuthPoll 1 =
      some ⟨.err .authError ("Auth failed during polling: " ++ "expired"),
            some (buildPayload (fun _ => "B64") cfgValid), 1, 1,
            (List.range 0).map fun j =>
              sleepAmt envAuthPoll cfgValid.poll_interval_s j⟩ :=
  run_tvae_auth_errors_terminal (fun _ => "B64") cfgValid envAuth403
    envAuthPoll 1 0 0 403 200 401 "denied" "" "expired" "abc" ⟨none⟩
    ⟨none, none, none⟩ (by decide) rfl (Or.inr rfl) rfl (by omega)
    (by decide) (fun j hj => absurd hj (by omega))
    (by norm_num [envAuthPoll, cfgValid]) rfl (Or.inl rfl)

/-- C7 witness: a transport exception continues the loop with a
`min(5, 2)` sleep; an exception-then-success run still returns the
result; an HTTP 500 poll terminates the loop at that GET. -/
theorem pollLoop_transport_exception_retried_witness :
    pollLoop envExnOnly 10 2 1 0 0 [] =
      pollLoop envExnOnly 10 2 0 1 1 ([] ++ [min 5 2]) ∧
    run_tvae (fun _ => "B64") cfgValid envExnThenOk 2 =
      some ⟨.ok (statusSucceededX1.result.getD []),
            some (buildPayload (fun _ => "B64") cfgValid), 1, 2,
            [min 5 cfgValid.poll_interval_s]⟩ ∧
    (∃ res, pollLoop envServerErr 10 2 1 0 0 [] = some res ∧
      res.gets = 1) :=
  pollLoop_transport_exception_retried (fun _ => "B64") cfgValid
    envExnOnly envExnThenOk envServerErr 10 2 10 2 0 0 0 0 0 0 0 [] []
    "net" "net" 200 200 500 "" "" "boom" "abc" statusSucceededX1
    ⟨none, none, none⟩ (by norm_num [envExnOnly]) rfl (by decide) rfl
    (by omega) (by decide) rfl (by decide) (by omega) rfl
    (by norm_num [envExnThenOk, cfgValid])
    (by norm_num [envExnThenOk, cfgValid]) (by norm_num [envServerErr])
    rfl (Or.inl (by omega))
